import Mathlib

/-!
Kiwi `_kiwi.c`: callback trampolines between GObject/GDK and Python.

A shallow embedding of `src/kiwi/_kiwi.c`.  Every C function is a Lean function
that returns its result together with the list of effects it performs, in
program order (`Event`).  The collaborators that live outside the file
(the Python interpreter, pygobject, GLib, GDK) are the fields of `Env`.

Memory allocation is assumed to succeed (`PyTuple_New`, `PySequence_Concat`,
`Py_BuildValue`, `g_new0`, `pyg_boxed_new` return a value).
-/

namespace Kiwi

/-! ## Data model -/

/-- Host-runtime objects.  Equality of the model is object identity:
`Py_True` is the one canonical true object, `int 1` is a different object. -/
inductive PyObject where
  | Py_None
  | Py_True
  | Py_False
  | int (n : Int)
  | str (s : String)
  | object (id : Nat)
  | boxed (gtype : Nat) (ptr : Nat)
  deriving DecidableEq, Repr

/-- A native parameter value handed to an emission hook. -/
structure GValue where
  g_type : Nat
  payload : Int
  deriving DecidableEq, Repr

/-- A native GDK event record (its address). -/
structure GdkEvent where
  ptr : Nat
  deriving DecidableEq, Repr

/-- The struct `PyGtkCustomNotify { PyObject *func, *data; }`; a null pointer is
`none`. -/
structure PyGtkCustomNotify where
  func : Option PyObject
  data : Option PyObject
  deriving DecidableEq, Repr

/-- The tuple built by `Py_BuildValue("(ON)", callback, extra_args)` and handed
to the native facility as `user_data`: item 0 is the callable, item 1 the
tuple of extra arguments. -/
structure HookData where
  callback : PyObject
  extra_args : List PyObject
  deriving DecidableEq, Repr

/-- What a reference-count operation is applied to: a single object, or a
tuple (given by its items). -/
inductive PyRef where
  | obj (o : PyObject)
  | tuple (items : List PyObject)
  deriving DecidableEq, Repr

/-- The function pointers stored in the GDK handler slot. -/
inductive EventFunc where
  | pygdk_event_handler_marshal
  | other (addr : Nat)
  deriving DecidableEq, Repr

/-- The destroy notifiers stored in the GDK handler slot. -/
inductive DestroyNotify where
  | pygtk_custom_destroy_notify
  deriving DecidableEq, Repr

/-- Effects, in the order the C code performs them. -/
inductive Event where
  | pyg_gil_state_ensure
  | pyg_gil_state_release
  | PyTuple_New (n : Nat)
  | pyg_value_as_pyobject (i : Nat) (item : Option PyObject)
  | PyTuple_SetItem (i : Nat) (item : PyObject)
  | PySequence_Concat (params extra : List PyObject)
  | PyObject_CallObject (func : PyObject) (args : List PyObject) (retobj : Option PyObject)
  | PyErr_Print
  | Py_INCREF (r : PyRef)
  | Py_DECREF (r : PyRef)
  | pyg_boxed_new (event : GdkEvent)
  | g_free (cunote : PyGtkCustomNotify)
  | g_signal_add_emission_hook (sigid detail : Nat) (data : HookData) (hook_id : Nat)
  | g_signal_remove_emission_hook (signal_id hook_id : Nat)
  | pyg_destroy_notify (data : HookData)
  | gdk_event_handler_set (func : Option EventFunc) (data : Option PyGtkCustomNotify)
      (notify : Option DestroyNotify)
  deriving DecidableEq, Repr

/-- The collaborators outside `_kiwi.c`.  A `none` result is the C `NULL`/`0`/
`FALSE` failure return. -/
structure Env where
  /-- Translation of a native value into a host value (pygobject). -/
  pyg_value_as_pyobject : GValue → Option PyObject
  /-- Calling a host object with positional arguments; `none` when it raises. -/
  PyObject_CallObject : PyObject → List PyObject → Option PyObject
  /-- Whether a host object is invocable. -/
  PyCallable_Check : PyObject → Bool
  /-- The native type of a host type object (pygobject); `none` is `0`. -/
  pyg_type_from_object : PyObject → Option Nat
  /-- Resolution of a signal name on a type to `(signal id, detail)` (GLib). -/
  g_signal_parse_name : String → Nat → Option (Nat × Nat)
  /-- The text of `PyObject_Repr`. -/
  PyObject_Repr : PyObject → String
  /-- The host wrapper of a native event (pygobject). -/
  pyg_boxed_new : GdkEvent → PyObject

/-! ## `marshal_emission_hook` -/

/-- Result of the parameter loop of `marshal_emission_hook`: whether it ran to
the end, the items stored in `params` so far, and the effects. -/
structure LoopResult where
  ok : Bool
  params : List PyObject
  trace : List Event
  deriving DecidableEq, Repr

/-- The loop `for (i = 0; i < n_param_values; i++)`, started at index `i` with
`params` holding the items set so far. -/
def marshal_loop (env : Env) : Nat → List GValue → List PyObject → LoopResult
  | _, [], params => ⟨true, params, []⟩
  | i, v :: rest, params =>
    match env.pyg_value_as_pyobject v with
    | none => ⟨false, params, [Event.pyg_value_as_pyobject i none]⟩
    | some item =>
      let r := marshal_loop env (i + 1) rest (params ++ [item])
      ⟨r.ok, r.params,
        Event.pyg_value_as_pyobject i (some item) :: Event.PyTuple_SetItem i item :: r.trace⟩

/-- What a trampoline hands back to the native caller. -/
structure HookResult where
  retval : Bool
  trace : List Event
  deriving DecidableEq, Repr

/-- The effects of `Py_XDECREF(retobj)`. -/
def Py_XDECREF (o : Option PyObject) : List Event :=
  match o with
  | none => []
  | some r => [Event.Py_DECREF (PyRef.obj r)]

/-- The function `marshal_emission_hook(ihint, n_param_values, param_values, user_data)`. -/
def marshal_emission_hook (env : Env) (param_values : List GValue) (user_data : HookData) :
    HookResult :=
  let n_param_values := param_values.length
  let entry := [Event.pyg_gil_state_ensure, Event.PyTuple_New n_param_values]
  let loop := marshal_loop env 0 param_values []
  if loop.ok then
    let func := user_data.callback
    let args := loop.params ++ user_data.extra_args
    let retobj := env.PyObject_CallObject func args
    let report := match retobj with
      | none => [Event.PyErr_Print]
      | some _ => []
    let retval := decide (retobj = some PyObject.Py_True)
    ⟨retval,
      entry ++ loop.trace ++
        [Event.PySequence_Concat loop.params user_data.extra_args,
         Event.Py_DECREF (PyRef.tuple loop.params),
         Event.PyObject_CallObject func args retobj,
         Event.Py_DECREF (PyRef.tuple args)] ++
        report ++ Py_XDECREF retobj ++ [Event.pyg_gil_state_release]⟩
  else
    -- goto out
    ⟨false, entry ++ loop.trace ++ [Event.pyg_gil_state_release]⟩

/-! ## `pygtk_custom_destroy_notify` and `pygdk_event_handler_marshal` -/

/-- The function `pygtk_custom_destroy_notify(user_data)`: nothing when
`user_data` is null, otherwise both members are released under the lock and
the record is freed. -/
def pygtk_custom_destroy_notify (user_data : Option PyGtkCustomNotify) : List Event :=
  match user_data with
  | none => []
  | some cunote =>
    [Event.pyg_gil_state_ensure] ++ Py_XDECREF cunote.func ++ Py_XDECREF cunote.data ++
      [Event.pyg_gil_state_release, Event.g_free cunote]

/-- The function `pygdk_event_handler_marshal(event, data)`.  The result is
`none` when `g_assert (cunote->func)` aborts the process. -/
def pygdk_event_handler_marshal (env : Env) (event : GdkEvent) (data : PyGtkCustomNotify) :
    Option (List Event) :=
  match data.func with
  | none => none
  | some func =>
    let pyevent := env.pyg_boxed_new event
    let args := match data.data with
      | some d => [pyevent, d]
      | none => [pyevent]
    let retobj := env.PyObject_CallObject func args
    let finish := match retobj with
      | none => [Event.PyErr_Print]
      | some r => [Event.Py_DECREF (PyRef.obj r)]
    some ([Event.pyg_gil_state_ensure, Event.pyg_boxed_new event,
            Event.PyObject_CallObject func args retobj] ++ finish ++
          [Event.pyg_gil_state_release])

/-! ## The native facilities -/

/-- Width of the C type `unsigned long` (LP64). -/
def ULONG_MOD : Nat := 2 ^ 64

/-- One registered emission hook of the native facility. -/
structure EmissionHook where
  signal_id : Nat
  detail : Nat
  hook_id : Nat
  data : HookData
  deriving DecidableEq, Repr

/-- State of the native signal and event facilities: the registered emission
hooks, the next hook id, and the single GDK event-handler slot. -/
structure Native where
  hooks : List EmissionHook
  seq_id : Nat
  event_func : Option EventFunc
  event_data : Option PyGtkCustomNotify
  event_notify : Option DestroyNotify
  deriving DecidableEq, Repr

/-- The native state before anything is registered. -/
def Native.init : Native := ⟨[], 1, none, none, none⟩

/-- Modelled from the spec: the native emission-hook registration
(`g_signal_add_emission_hook` of GLib, not part of `src/`).  It registers the
closure for the signal id and detail and returns a numeric handle (an
`unsigned long`) identifying the registration. -/
def g_signal_add_emission_hook (s : Native) (sigid detail : Nat) (data : HookData) :
    Nat × Native :=
  let hook_id := s.seq_id % ULONG_MOD
  (hook_id, { s with hooks := s.hooks ++ [⟨sigid, detail, hook_id, data⟩],
                     seq_id := s.seq_id + 1 })

/-- Modelled from the spec: the native emission-hook removal
(`g_signal_remove_emission_hook` of GLib, not part of `src/`).  The hook with
this signal id and handle, when there is one, is taken out and the
destruction callback given at registration (`pyg_destroy_notify`) is invoked
on its closure. -/
def g_signal_remove_emission_hook (s : Native) (signal_id hook_id : Nat) :
    Native × List Event :=
  match s.hooks.find? (fun h => h.signal_id = signal_id ∧ h.hook_id = hook_id) with
  | none => (s, [])
  | some h =>
    ({ s with hooks := s.hooks.eraseP (fun h => h.signal_id = signal_id ∧ h.hook_id = hook_id) },
      [Event.pyg_destroy_notify h.data])

/-- Modelled from the spec: the native event-handler slot
(`gdk_event_handler_set` of GDK, not part of `src/`).  Installing replaces the
single global handler; the teardown callback of the previous one, when one
is registered, runs on the previous closure first. -/
def gdk_event_handler_set (s : Native) (func : Option EventFunc)
    (data : Option PyGtkCustomNotify) (notify : Option DestroyNotify) : Native × List Event :=
  let teardown := match s.event_notify with
    | some DestroyNotify.pygtk_custom_destroy_notify => pygtk_custom_destroy_notify s.event_data
    | none => []
  ({ s with event_func := func, event_data := data, event_notify := notify },
    teardown ++ [Event.gdk_event_handler_set func data notify])

/-! ## The entry points -/

/-- The error indicator left by a failed call. -/
inductive PyErr where
  /-- An error set here with `PyErr_SetString`/`PyErr_Format (PyExc_TypeError, ...)`. -/
  | TypeError (msg : String)
  /-- An error set by the named callee; the function only returns `NULL`. -/
  | raised_by (callee : String)
  deriving DecidableEq, Repr

/-- Result of an entry point: the returned object or the error, the native
state afterwards, and the effects on the native side. -/
structure CallResult where
  ret : Except PyErr PyObject
  state : Native
  trace : List Event

/-- The message of `PyErr_Format(PyExc_TypeError, "%s: unknown signal name: %s", ...)`. -/
def unknown_signal (env : Env) (self : PyObject) (name : String) : PyErr :=
  PyErr.TypeError (env.PyObject_Repr self ++ ": unknown signal name: " ++ name)

/-- The function `pyg_add_emission_hook(self, args)`.  `"OsO"` takes any
object, a string and any object.  Reference counting inside the function is
left out of the effect list. -/
def pyg_add_emission_hook (env : Env) (self : PyObject) (args : List PyObject) (s : Native) :
    CallResult :=
  let len := args.length
  if len < 3 then
    ⟨.error (PyErr.TypeError "gobject.add_emission_hook requires at least 3 arguments"), s, []⟩
  else
    match args.take 3 with
    | [pygtype, PyObject.str name, callback] =>
      match env.pyg_type_from_object pygtype with
      | none => ⟨.error (PyErr.raised_by "pyg_type_from_object"), s, []⟩
      | some gtype =>
        if !env.PyCallable_Check callback then
          ⟨.error (PyErr.TypeError "third argument must be callable"), s, []⟩
        else
          match env.g_signal_parse_name name gtype with
          | none => ⟨.error (unknown_signal env self name), s, []⟩
          | some (sigid, detail) =>
            let extra_args := args.drop 3
            let data : HookData := ⟨callback, extra_args⟩
            let r := g_signal_add_emission_hook s sigid detail data
            ⟨.ok (PyObject.int r.1), r.2,
              [Event.g_signal_add_emission_hook sigid detail data r.1]⟩
    | _ => ⟨.error (PyErr.raised_by "PyArg_ParseTuple"), s, []⟩

/-- The function `pyg_remove_emission_hook(self, args)`.  `"Osk"` takes any
object, a string and an integer, which is reduced to an `unsigned long`
without overflow checking. -/
def pyg_remove_emission_hook (env : Env) (self : PyObject) (args : List PyObject) (s : Native) :
    CallResult :=
  match args with
  | [pygtype, PyObject.str name, PyObject.int k] =>
    let hook_id := (k % (ULONG_MOD : Int)).toNat
    match env.pyg_type_from_object pygtype with
    | none => ⟨.error (PyErr.raised_by "pyg_type_from_object"), s, []⟩
    | some gtype =>
      match env.g_signal_parse_name name gtype with
      | none => ⟨.error (unknown_signal env self name), s, []⟩
      | some (signal_id, _) =>
        let r := g_signal_remove_emission_hook s signal_id hook_id
        ⟨.ok PyObject.Py_None, r.1,
          Event.g_signal_remove_emission_hook signal_id hook_id :: r.2⟩
  | _ => ⟨.error (PyErr.raised_by "PyArg_ParseTuple"), s, []⟩

/-- The effects of `Py_XINCREF(o)`. -/
def Py_XINCREF (o : Option PyObject) : List Event :=
  match o with
  | none => []
  | some r => [Event.Py_INCREF (PyRef.obj r)]

/-- The function `_wrap_gdk_event_handler_set(self, args, kwargs)`.  `"O|O"`
takes one object and an optional second one. -/
def _wrap_gdk_event_handler_set (args : List PyObject) (s : Native) : CallResult :=
  let body (pyfunc : PyObject) (pyarg : Option PyObject) : CallResult :=
    if pyfunc = PyObject.Py_None then
      let r := gdk_event_handler_set s none none none
      ⟨.ok PyObject.Py_None, r.1, r.2 ++ [Event.Py_INCREF (PyRef.obj PyObject.Py_None)]⟩
    else
      let cunote : PyGtkCustomNotify := ⟨some pyfunc, pyarg⟩
      let r := gdk_event_handler_set s (some EventFunc.pygdk_event_handler_marshal)
        (some cunote) (some DestroyNotify.pygtk_custom_destroy_notify)
      ⟨.ok PyObject.Py_None, r.1,
        [Event.Py_INCREF (PyRef.obj pyfunc)] ++ Py_XINCREF pyarg ++ r.2 ++
          [Event.Py_INCREF (PyRef.obj PyObject.Py_None)]⟩
  match args with
  | [pyfunc] => body pyfunc none
  | [pyfunc, pyarg] => body pyfunc (some pyarg)
  | _ => ⟨.error (PyErr.raised_by "PyArg_ParseTuple"), s, []⟩

/-! ## Observations on an effect list -/

/-- The calls of the user callable, with their arguments. -/
def calls : List Event → List (PyObject × List PyObject)
  | [] => []
  | Event.PyObject_CallObject f a _ :: es => (f, a) :: calls es
  | _ :: es => calls es

/-- The indices of the parameters whose translation was attempted. -/
def translated : List Event → List Nat
  | [] => []
  | Event.pyg_value_as_pyobject i _ :: es => i :: translated es
  | _ :: es => translated es

/-- The references the running function owns: a new tuple, a translated item, a
concatenation and a returned value each add one; storing an item into a
tuple hands it over, and `Py_DECREF` gives one up. -/
def owned_refs : List Event → Int
  | [] => 0
  | Event.PyTuple_New _ :: es => owned_refs es + 1
  | Event.pyg_value_as_pyobject _ (some _) :: es => owned_refs es + 1
  | Event.PyTuple_SetItem _ _ :: es => owned_refs es - 1
  | Event.PySequence_Concat _ _ :: es => owned_refs es + 1
  | Event.PyObject_CallObject _ _ (some _) :: es => owned_refs es + 1
  | Event.Py_INCREF _ :: es => owned_refs es + 1
  | Event.Py_DECREF _ :: es => owned_refs es - 1
  | _ :: es => owned_refs es

/-- The effects that touch the global execution lock. -/
def is_gil (e : Event) : Bool :=
  e = Event.pyg_gil_state_ensure ∨ e = Event.pyg_gil_state_release

/-- A sample environment: values of type 0 do not translate, object 7 returns
what it is given first, object 8 raises, object 9 returns `Py_True`. -/
def sampleEnv : Env where
  pyg_value_as_pyobject := fun v => if v.g_type = 0 then none else some (PyObject.int v.payload)
  PyObject_CallObject := fun f a =>
    match f with
    | PyObject.object 7 => some (a.headD PyObject.Py_None)
    | PyObject.object 9 => some PyObject.Py_True
    | _ => none
  PyCallable_Check := fun o =>
    match o with
    | PyObject.object _ => true
    | _ => false
  pyg_type_from_object := fun o =>
    match o with
    | PyObject.int n => if 0 < n then some n.toNat else none
    | _ => none
  g_signal_parse_name := fun name gtype =>
    if name = "clicked" then some (gtype * 10 + 1, 0)
    else if name = "notify::label" then some (gtype * 10 + 2, 5)
    else none
  PyObject_Repr := fun _ => "<module>"
  pyg_boxed_new := fun e => PyObject.boxed 1 e.ptr

/-- The closure records freed by a teardown, in order. -/
def frees : List Event → List PyGtkCustomNotify
  | [] => []
  | Event.g_free c :: es => c :: frees es
  | _ :: es => frees es

/-- The references given up with `Py_DECREF`, in order. -/
def decrefs : List Event → List PyRef
  | [] => []
  | Event.Py_DECREF r :: es => r :: decrefs es
  | _ :: es => decrefs es

/-- The closures on which the destruction notification of an emission hook
ran, in order. -/
def destroyed : List Event → List HookData
  | [] => []
  | Event.pyg_destroy_notify d :: es => d :: destroyed es
  | _ :: es => destroyed es

/-- The effects of a run of successful translations starting at index `i`. -/
def ok_events : Nat → List PyObject → List Event
  | _, [] => []
  | i, t :: ts =>
    Event.pyg_value_as_pyobject i (some t) :: Event.PyTuple_SetItem i t :: ok_events (i + 1) ts

/-! ## Lemmas on the parameter loop -/

theorem marshal_loop_ok (env : Env) (vs : List GValue) :
    ∀ (ts : List PyObject) (i : Nat) (acc : List PyObject),
      vs.map env.pyg_value_as_pyobject = ts.map some →
      marshal_loop env i vs acc = ⟨true, acc ++ ts, ok_events i ts⟩ := by
  induction vs with
  | nil =>
    intro ts i acc h
    cases ts with
    | nil => simp [marshal_loop, ok_events]
    | cons t ts => simp at h
  | cons v vs ih =>
    intro ts i acc h
    cases ts with
    | nil => simp at h
    | cons t ts =>
      simp only [List.map_cons, List.cons.injEq] at h
      simp [marshal_loop, h.1, ih ts (i + 1) (acc ++ [t]) h.2, ok_events]

theorem marshal_loop_fail (env : Env) (bad : GValue) (post : List GValue)
    (hbad : env.pyg_value_as_pyobject bad = none) (pre : List GValue) :
    ∀ (ts : List PyObject) (i : Nat) (acc : List PyObject),
      pre.map env.pyg_value_as_pyobject = ts.map some →
      marshal_loop env i (pre ++ bad :: post) acc =
        ⟨false, acc ++ ts, ok_events i ts ++ [Event.pyg_value_as_pyobject (i + ts.length) none]⟩ := by
  induction pre with
  | nil =>
    intro ts i acc h
    cases ts with
    | nil => simp [marshal_loop, ok_events, hbad]
    | cons t ts => simp at h
  | cons v vs ih =>
    intro ts i acc h
    cases ts with
    | nil => simp at h
    | cons t ts =>
      simp only [List.map_cons, List.cons.injEq] at h
      simp [marshal_loop, h.1, ih ts (i + 1) (acc ++ [t]) h.2, ok_events]
      omega

theorem calls_append (a b : List Event) : calls (a ++ b) = calls a ++ calls b := by
  induction a with
  | nil => rfl
  | cons e es ih => cases e <;> simp [calls, ih]

theorem translated_append (a b : List Event) :
    translated (a ++ b) = translated a ++ translated b := by
  induction a with
  | nil => rfl
  | cons e es ih => cases e <;> simp [translated, ih]

theorem owned_refs_append (a b : List Event) :
    owned_refs (a ++ b) = owned_refs a + owned_refs b := by
  induction a with
  | nil => simp [owned_refs]
  | cons e es ih =>
    cases e with
    | pyg_value_as_pyobject i item =>
      cases item with
      | none => simp [owned_refs, ih]
      | some t => simp [owned_refs, ih]; omega
    | PyObject_CallObject f a r =>
      cases r with
      | none => simp [owned_refs, ih]
      | some t => simp [owned_refs, ih]; omega
    | _ => simp [owned_refs, ih] <;> omega

theorem frees_append (a b : List Event) : frees (a ++ b) = frees a ++ frees b := by
  induction a with
  | nil => rfl
  | cons e es ih => cases e <;> simp [frees, ih]

theorem decrefs_append (a b : List Event) : decrefs (a ++ b) = decrefs a ++ decrefs b := by
  induction a with
  | nil => rfl
  | cons e es ih => cases e <;> simp [decrefs, ih]

theorem calls_ok_events (ts : List PyObject) : ∀ i, calls (ok_events i ts) = [] := by
  induction ts with
  | nil => intro i; rfl
  | cons t ts ih => intro i; simp [ok_events, calls, ih]

theorem translated_ok_events (ts : List PyObject) :
    ∀ i, translated (ok_events i ts) = (List.range ts.length).map (fun k => i + k) := by
  induction ts with
  | nil => intro i; rfl
  | cons t ts ih =>
    intro i
    simp [ok_events, translated, ih, List.range_succ_eq_map]
    intro a _
    omega

theorem owned_refs_ok_events (ts : List PyObject) : ∀ i, owned_refs (ok_events i ts) = 0 := by
  induction ts with
  | nil => intro i; rfl
  | cons t ts ih => intro i; simp [ok_events, owned_refs, ih]

theorem count_print_ok_events (ts : List PyObject) :
    ∀ i, (ok_events i ts).count Event.PyErr_Print = 0 := by
  induction ts with
  | nil => intro i; rfl
  | cons t ts ih => intro i; simp [ok_events, ih]

/-- Trace of `marshal_emission_hook` when every translation succeeds. -/
theorem marshal_emission_hook_ok (env : Env) (vs : List GValue) (ts : List PyObject)
    (d : HookData) (h : vs.map env.pyg_value_as_pyobject = ts.map some) :
    marshal_emission_hook env vs d =
      ⟨decide (env.PyObject_CallObject d.callback (ts ++ d.extra_args) = some PyObject.Py_True),
        [Event.pyg_gil_state_ensure, Event.PyTuple_New vs.length] ++ ok_events 0 ts ++
        [Event.PySequence_Concat ts d.extra_args,
         Event.Py_DECREF (PyRef.tuple ts),
         Event.PyObject_CallObject d.callback (ts ++ d.extra_args)
           (env.PyObject_CallObject d.callback (ts ++ d.extra_args)),
         Event.Py_DECREF (PyRef.tuple (ts ++ d.extra_args))] ++
        (match env.PyObject_CallObject d.callback (ts ++ d.extra_args) with
          | none => [Event.PyErr_Print]
          | some _ => []) ++
        Py_XDECREF (env.PyObject_CallObject d.callback (ts ++ d.extra_args)) ++
        [Event.pyg_gil_state_release]⟩ := by
  simp [marshal_emission_hook, marshal_loop_ok env vs ts 0 [] h]

/-- Trace of `marshal_emission_hook` when the translation of `bad` fails. -/
theorem marshal_emission_hook_fail (env : Env) (pre post : List GValue) (bad : GValue)
    (ts : List PyObject) (d : HookData)
    (hpre : pre.map env.pyg_value_as_pyobject = ts.map some)
    (hbad : env.pyg_value_as_pyobject bad = none) :
    marshal_emission_hook env (pre ++ bad :: post) d =
      ⟨false,
        [Event.pyg_gil_state_ensure, Event.PyTuple_New (pre ++ bad :: post).length] ++
        ok_events 0 ts ++ [Event.pyg_value_as_pyobject ts.length none] ++
        [Event.pyg_gil_state_release]⟩ := by
  simp [marshal_emission_hook, marshal_loop_fail env bad post hbad pre ts 0 [] hpre]

theorem filter_gil_marshal_loop (env : Env) (vs : List GValue) :
    ∀ (i : Nat) (acc : List PyObject), (marshal_loop env i vs acc).trace.filter is_gil = [] := by
  induction vs with
  | nil => intro i acc; rfl
  | cons v vs ih =>
    intro i acc
    cases hv : env.pyg_value_as_pyobject v with
    | none => simp [marshal_loop, hv, is_gil]
    | some item => simp [marshal_loop, hv, is_gil, ih]

/-! ## The trampolines -/

/-- C1: when every parameter translates and the callable returns a value, the
continuation signal handed back by `marshal_emission_hook` is true exactly
when that value is the canonical true object `Py_True` itself. -/
theorem continuation_iff_Py_True (env : Env) (vs : List GValue) (ts : List PyObject)
    (d : HookData) (r : PyObject)
    (htr : vs.map env.pyg_value_as_pyobject = ts.map some)
    (hret : env.PyObject_CallObject d.callback (ts ++ d.extra_args) = some r) :
    ((marshal_emission_hook env vs d).retval = true ↔ r = PyObject.Py_True) := by
  rw [marshal_emission_hook_ok env vs ts d htr]
  simp [hret]

/-- Witness of C1: the callable returns the truthy object `int 1`, which is not
`Py_True`, and the signal is false. -/
theorem continuation_iff_Py_True_witness :
    ((marshal_emission_hook sampleEnv [⟨1, 1⟩] ⟨PyObject.object 7, [PyObject.str "x"]⟩).retval
      = true ↔ PyObject.int 1 = PyObject.Py_True) :=
  continuation_iff_Py_True sampleEnv [⟨1, 1⟩] [PyObject.int 1]
    ⟨PyObject.object 7, [PyObject.str "x"]⟩ (PyObject.int 1) (by decide) (by decide)

/-- C4: when the user callable raises, each trampoline reports the fault once
with `PyErr_Print` and returns; the emission hook hands back false. -/
theorem callable_raises_reported_once (env : Env) (vs : List GValue) (ts : List PyObject)
    (d : HookData) (event : GdkEvent) (f : PyObject) (c : Option PyObject)
    (htr : vs.map env.pyg_value_as_pyobject = ts.map some)
    (hhook : env.PyObject_CallObject d.callback (ts ++ d.extra_args) = none)
    (hhandler : env.PyObject_CallObject f (env.pyg_boxed_new event :: c.toList) = none) :
    (marshal_emission_hook env vs d).retval = false ∧
    (marshal_emission_hook env vs d).trace.count Event.PyErr_Print = 1 ∧
    ∃ t, pygdk_event_handler_marshal env event ⟨some f, c⟩ = some t ∧
      t.count Event.PyErr_Print = 1 := by
  rw [marshal_emission_hook_ok env vs ts d htr]
  refine ⟨by simp [hhook], ?_, ?_⟩
  · simp [hhook, Py_XDECREF, List.count_append, count_print_ok_events]
  · cases c with
    | none =>
      simp only [Option.toList] at hhandler
      simp [pygdk_event_handler_marshal, hhandler]
    | some x =>
      simp only [Option.toList] at hhandler
      simp [pygdk_event_handler_marshal, hhandler]

/-- Witness of C4: object 8 raises in both trampolines. -/
theorem callable_raises_reported_once_witness :
    (marshal_emission_hook sampleEnv [⟨1, 5⟩] ⟨PyObject.object 8, []⟩).retval = false ∧
    (marshal_emission_hook sampleEnv [⟨1, 5⟩] ⟨PyObject.object 8, []⟩).trace.count
      Event.PyErr_Print = 1 ∧
    ∃ t, pygdk_event_handler_marshal sampleEnv ⟨3⟩ ⟨some (PyObject.object 8),
        some (PyObject.int 2)⟩ = some t ∧ t.count Event.PyErr_Print = 1 :=
  callable_raises_reported_once sampleEnv [⟨1, 5⟩] [PyObject.int 5] ⟨PyObject.object 8, []⟩ ⟨3⟩
    (PyObject.object 8) (some (PyObject.int 2)) (by decide) (by decide) (by decide)

/-- C5: when the translation of a parameter fails, the parameters translated
are those up to and including the first failing one, the callable is not
called, nothing is printed on the fault channel, and the hook hands back
false. -/
theorem translation_failure_suppresses_call (env : Env) (pre post : List GValue)
    (bad : GValue) (ts : List PyObject) (d : HookData)
    (hpre : pre.map env.pyg_value_as_pyobject = ts.map some)
    (hbad : env.pyg_value_as_pyobject bad = none) :
    translated (marshal_emission_hook env (pre ++ bad :: post) d).trace
      = List.range (pre.length + 1) ∧
    calls (marshal_emission_hook env (pre ++ bad :: post) d).trace = [] ∧
    (marshal_emission_hook env (pre ++ bad :: post) d).trace.count Event.PyErr_Print = 0 ∧
    (marshal_emission_hook env (pre ++ bad :: post) d).retval = false := by
  have hlen : pre.length = ts.length := by
    simpa using congrArg List.length hpre
  rw [marshal_emission_hook_fail env pre post bad ts d hpre hbad]
  refine ⟨?_, ?_, ?_, rfl⟩
  · simp [translated_append, translated_ok_events, translated, hlen, List.range_succ]
  · simp [calls_append, calls_ok_events, calls]
  · simp [List.count_append, count_print_ok_events]

/-- Witness of C5: the second of three parameters does not translate. -/
theorem translation_failure_suppresses_call_witness :
    translated (marshal_emission_hook sampleEnv ([⟨1, 5⟩] ++ ⟨0, 0⟩ :: [⟨1, 3⟩])
      ⟨PyObject.object 9, []⟩).trace = List.range (([⟨1, 5⟩] : List GValue).length + 1) ∧
    calls (marshal_emission_hook sampleEnv ([⟨1, 5⟩] ++ ⟨0, 0⟩ :: [⟨1, 3⟩])
      ⟨PyObject.object 9, []⟩).trace = [] ∧
    (marshal_emission_hook sampleEnv ([⟨1, 5⟩] ++ ⟨0, 0⟩ :: [⟨1, 3⟩])
      ⟨PyObject.object 9, []⟩).trace.count Event.PyErr_Print = 0 ∧
    (marshal_emission_hook sampleEnv ([⟨1, 5⟩] ++ ⟨0, 0⟩ :: [⟨1, 3⟩])
      ⟨PyObject.object 9, []⟩).retval = false :=
  translation_failure_suppresses_call sampleEnv [⟨1, 5⟩] [⟨1, 3⟩] ⟨0, 0⟩ [PyObject.int 5]
    ⟨PyObject.object 9, []⟩ (by decide) (by decide)

/-- C9: every run of a trampoline starts by taking the global execution lock,
ends by giving it back, and touches the lock nowhere in between, whatever
the parameters, the closure and the behaviour of the callable. -/
theorem gil_taken_and_released_once (env : Env) (vs : List GValue) (d : HookData)
    (event : GdkEvent) (f : PyObject) (c : Option PyObject) :
    (∃ mid, (marshal_emission_hook env vs d).trace =
        Event.pyg_gil_state_ensure :: mid ++ [Event.pyg_gil_state_release] ∧
        mid.filter is_gil = []) ∧
    (∃ mid, pygdk_event_handler_marshal env event ⟨some f, c⟩ =
        some (Event.pyg_gil_state_ensure :: mid ++ [Event.pyg_gil_state_release]) ∧
        mid.filter is_gil = []) := by
  constructor
  · unfold marshal_emission_hook
    have hl := filter_gil_marshal_loop env vs 0 []
    cases hok : (marshal_loop env 0 vs []).ok with
    | false =>
      refine ⟨Event.PyTuple_New vs.length :: (marshal_loop env 0 vs []).trace, ?_, ?_⟩
      · simp [hok]
      · simp [is_gil, hl]
    | true =>
      cases hr : env.PyObject_CallObject d.callback
          ((marshal_loop env 0 vs []).params ++ d.extra_args) with
      | none =>
        refine ⟨Event.PyTuple_New vs.length :: (marshal_loop env 0 vs []).trace ++
          [Event.PySequence_Concat (marshal_loop env 0 vs []).params d.extra_args,
           Event.Py_DECREF (PyRef.tuple (marshal_loop env 0 vs []).params),
           Event.PyObject_CallObject d.callback
             ((marshal_loop env 0 vs []).params ++ d.extra_args) none,
           Event.Py_DECREF (PyRef.tuple ((marshal_loop env 0 vs []).params ++ d.extra_args)),
           Event.PyErr_Print], ?_, ?_⟩
        · simp [hok, hr, Py_XDECREF]
        · simp [is_gil, hl]
      | some r =>
        refine ⟨Event.PyTuple_New vs.length :: (marshal_loop env 0 vs []).trace ++
          [Event.PySequence_Concat (marshal_loop env 0 vs []).params d.extra_args,
           Event.Py_DECREF (PyRef.tuple (marshal_loop env 0 vs []).params),
           Event.PyObject_CallObject d.callback
             ((marshal_loop env 0 vs []).params ++ d.extra_args) (some r),
           Event.Py_DECREF (PyRef.tuple ((marshal_loop env 0 vs []).params ++ d.extra_args)),
           Event.Py_DECREF (PyRef.obj r)], ?_, ?_⟩
        · simp [hok, hr, Py_XDECREF]
        · simp [is_gil, hl]
  · have key : ∀ args : List PyObject, ∃ mid,
        some ([Event.pyg_gil_state_ensure, Event.pyg_boxed_new event,
            Event.PyObject_CallObject f args (env.PyObject_CallObject f args)] ++
          (match env.PyObject_CallObject f args with
            | none => [Event.PyErr_Print]
            | some r => [Event.Py_DECREF (PyRef.obj r)]) ++
          [Event.pyg_gil_state_release]) =
        some (Event.pyg_gil_state_ensure :: mid ++ [Event.pyg_gil_state_release]) ∧
        mid.filter is_gil = [] := by
      intro args
      cases env.PyObject_CallObject f args with
      | none =>
        exact ⟨[Event.pyg_boxed_new event, Event.PyObject_CallObject f args none,
          Event.PyErr_Print], by simp, by simp [is_gil]⟩
      | some r =>
        exact ⟨[Event.pyg_boxed_new event, Event.PyObject_CallObject f args (some r),
          Event.Py_DECREF (PyRef.obj r)], by simp, by simp [is_gil]⟩
    exact key _

/-- What a successful registration does: the type converts, the callable is
accepted, the name resolves, and the closure `(callback, extras)` is handed to
the native facility, whose handle is returned. -/
theorem pyg_add_emission_hook_ok (env : Env) (self pygtype callback h : PyObject)
    (name : String) (extras : List PyObject) (s : Native)
    (hadd : (pyg_add_emission_hook env self
      (pygtype :: PyObject.str name :: callback :: extras) s).ret = .ok h) :
    ∃ gtype sigid detail,
      env.pyg_type_from_object pygtype = some gtype ∧
      env.g_signal_parse_name name gtype = some (sigid, detail) ∧
      h = PyObject.int ((g_signal_add_emission_hook s sigid detail ⟨callback, extras⟩).1) ∧
      (pyg_add_emission_hook env self (pygtype :: PyObject.str name :: callback :: extras) s).state
        = (g_signal_add_emission_hook s sigid detail ⟨callback, extras⟩).2 ∧
      (pyg_add_emission_hook env self (pygtype :: PyObject.str name :: callback :: extras) s).trace
        = [Event.g_signal_add_emission_hook sigid detail ⟨callback, extras⟩
            (g_signal_add_emission_hook s sigid detail ⟨callback, extras⟩).1] := by
  have hlen : ¬ (extras.length + 1 + 1 + 1 < 3) := by omega
  cases ht : env.pyg_type_from_object pygtype with
  | none => simp [pyg_add_emission_hook, hlen, ht] at hadd
  | some gtype =>
    cases hc : env.PyCallable_Check callback with
    | false => simp [pyg_add_emission_hook, hlen, ht, hc] at hadd
    | true =>
      cases hn : env.g_signal_parse_name name gtype with
      | none => simp [pyg_add_emission_hook, hlen, ht, hc, hn] at hadd
      | some p =>
        obtain ⟨sigid, detail⟩ := p
        simp [pyg_add_emission_hook, hlen, ht, hc, hn] at hadd
        refine ⟨gtype, sigid, detail, rfl, hn, hadd.symm, ?_, ?_⟩
        · simp [pyg_add_emission_hook, hlen, ht, hc, hn]
        · simp [pyg_add_emission_hook, hlen, ht, hc, hn]

/-- C2: a hook registered with `add_emission_hook(type, name, callback, e1..ek)`
hands one closure to the native facility, and an emission whose parameters
all translate calls the callback of that closure exactly once, with the
translated parameters followed by the extra arguments. -/
theorem hook_called_once_params_then_extras (env : Env) (self pygtype callback h : PyObject)
    (name : String) (extras : List PyObject) (s : Native) (vs : List GValue)
    (ts : List PyObject)
    (hadd : (pyg_add_emission_hook env self
      (pygtype :: PyObject.str name :: callback :: extras) s).ret = .ok h)
    (htr : vs.map env.pyg_value_as_pyobject = ts.map some) :
    ∃ sigid detail data hook_id,
      (pyg_add_emission_hook env self (pygtype :: PyObject.str name :: callback :: extras) s).trace
        = [Event.g_signal_add_emission_hook sigid detail data hook_id] ∧
      calls (marshal_emission_hook env vs data).trace = [(callback, ts ++ extras)] := by
  obtain ⟨gtype, sigid, detail, _, _, _, _, htrace⟩ :=
    pyg_add_emission_hook_ok env self pygtype callback h name extras s hadd
  refine ⟨sigid, detail, ⟨callback, extras⟩, _, htrace, ?_⟩
  rw [marshal_emission_hook_ok env vs ts ⟨callback, extras⟩ htr]
  cases env.PyObject_CallObject callback (ts ++ extras) with
  | none => simp [calls_append, calls_ok_events, calls, Py_XDECREF]
  | some r => simp [calls_append, calls_ok_events, calls, Py_XDECREF]

/-- Witness of C2: two extra arguments after two translated parameters. -/
theorem hook_called_once_params_then_extras_witness :
    ∃ sigid detail data hook_id,
      (pyg_add_emission_hook sampleEnv (PyObject.object 0)
        (PyObject.int 1 :: PyObject.str "clicked" :: PyObject.object 9 ::
          [PyObject.str "e1", PyObject.str "e2"]) Native.init).trace
        = [Event.g_signal_add_emission_hook sigid detail data hook_id] ∧
      calls (marshal_emission_hook sampleEnv [⟨1, 10⟩, ⟨1, 11⟩] data).trace
        = [(PyObject.object 9,
            [PyObject.int 10, PyObject.int 11] ++ [PyObject.str "e1", PyObject.str "e2"])] :=
  hook_called_once_params_then_extras sampleEnv (PyObject.object 0) (PyObject.int 1)
    (PyObject.object 9) (PyObject.int 1) "clicked" [PyObject.str "e1", PyObject.str "e2"]
    Native.init [⟨1, 10⟩, ⟨1, 11⟩] [PyObject.int 10, PyObject.int 11] (by rfl) (by decide)

/-- On the path where every parameter translates, the references taken are all
given back: `params`, `args` and the returned object are released. -/
theorem owned_refs_balanced_on_call (env : Env) (vs : List GValue) (ts : List PyObject)
    (d : HookData) (htr : vs.map env.pyg_value_as_pyobject = ts.map some) :
    owned_refs (marshal_emission_hook env vs d).trace = 0 := by
  rw [marshal_emission_hook_ok env vs ts d htr]
  cases env.PyObject_CallObject d.callback (ts ++ d.extra_args) with
  | none => simp [owned_refs_append, owned_refs_ok_events, owned_refs, Py_XDECREF]
  | some r => simp [owned_refs_append, owned_refs_ok_events, owned_refs, Py_XDECREF]

/-- On the path where a translation fails, `goto out` skips `Py_DECREF(params)`:
the tuple allocated at entry stays owned and nothing is released. -/
theorem owned_refs_after_failed_translation (env : Env) (pre post : List GValue)
    (bad : GValue) (ts : List PyObject) (d : HookData)
    (hpre : pre.map env.pyg_value_as_pyobject = ts.map some)
    (hbad : env.pyg_value_as_pyobject bad = none) :
    owned_refs (marshal_emission_hook env (pre ++ bad :: post) d).trace = 1 ∧
    decrefs (marshal_emission_hook env (pre ++ bad :: post) d).trace = [] := by
  rw [marshal_emission_hook_fail env pre post bad ts d hpre hbad]
  have hd : ∀ (l : List PyObject) (i : Nat), decrefs (ok_events i l) = [] := by
    intro l
    induction l with
    | nil => intro i; rfl
    | cons t l ih => intro i; simp [ok_events, decrefs, ih]
  constructor
  · simp [owned_refs_append, owned_refs_ok_events, owned_refs]
  · simp [decrefs_append, hd, decrefs]

/-- C10 (the code at the failing input): with one translated parameter and a
second that does not translate, the run takes the lock, builds `params`,
stores the first item and leaves; `params` is never released and one owned
reference remains. -/
theorem params_not_released_on_failed_translation :
    (marshal_emission_hook sampleEnv [⟨1, 5⟩, ⟨0, 0⟩] ⟨PyObject.object 9, []⟩).trace =
      [Event.pyg_gil_state_ensure, Event.PyTuple_New 2,
       Event.pyg_value_as_pyobject 0 (some (PyObject.int 5)),
       Event.PyTuple_SetItem 0 (PyObject.int 5),
       Event.pyg_value_as_pyobject 1 none,
       Event.pyg_gil_state_release] ∧
    decrefs (marshal_emission_hook sampleEnv [⟨1, 5⟩, ⟨0, 0⟩] ⟨PyObject.object 9, []⟩).trace
      = [] ∧
    owned_refs (marshal_emission_hook sampleEnv [⟨1, 5⟩, ⟨0, 0⟩] ⟨PyObject.object 9, []⟩).trace
      = 1 := by
  decide

/-! ## Registration and removal -/

/-- C3, as stated, fails: with a non-callable third argument the check of the
callable comes first, and an unresolvable signal name is reported as
"third argument must be callable", not as an unknown signal. -/
theorem add_unknown_signal_reports_not_callable :
    sampleEnv.pyg_type_from_object (PyObject.int 1) = some 1 ∧
    sampleEnv.g_signal_parse_name "no-such-signal" 1 = none ∧
    (pyg_add_emission_hook sampleEnv (PyObject.object 0)
      [PyObject.int 1, PyObject.str "no-such-signal", PyObject.int 5] Native.init).ret
      = .error (PyErr.TypeError "third argument must be callable") ∧
    (pyg_add_emission_hook sampleEnv (PyObject.object 0)
      [PyObject.int 1, PyObject.str "no-such-signal", PyObject.int 5] Native.init).ret
      ≠ .error (unknown_signal sampleEnv (PyObject.object 0) "no-such-signal") := by
  refine ⟨by decide, by decide, by rfl, ?_⟩
  intro h
  have h2 : (pyg_add_emission_hook sampleEnv (PyObject.object 0)
      [PyObject.int 1, PyObject.str "no-such-signal", PyObject.int 5] Native.init).ret
      = .error (PyErr.TypeError "third argument must be callable") := by rfl
  rw [h2] at h
  simp [unknown_signal, sampleEnv] at h

/-- C3, amended: a registration whose `(type, name)` pair does not resolve
fails, leaves the native state as it was and performs no native call; when
the type converts, the error is the unknown-signal error naming the signal
if the callback is callable, and "third argument must be callable" if not. -/
theorem add_unresolved_signal_fails (env : Env) (self pygtype callback : PyObject)
    (name : String) (extras : List PyObject) (s : Native)
    (hres : ∀ g, env.pyg_type_from_object pygtype = some g →
      env.g_signal_parse_name name g = none) :
    (∃ e, (pyg_add_emission_hook env self
      (pygtype :: PyObject.str name :: callback :: extras) s).ret = .error e) ∧
    (pyg_add_emission_hook env self
      (pygtype :: PyObject.str name :: callback :: extras) s).state = s ∧
    (pyg_add_emission_hook env self
      (pygtype :: PyObject.str name :: callback :: extras) s).trace = [] ∧
    (∀ g, env.pyg_type_from_object pygtype = some g →
      (pyg_add_emission_hook env self
        (pygtype :: PyObject.str name :: callback :: extras) s).ret =
        .error (if env.PyCallable_Check callback then unknown_signal env self name
                else PyErr.TypeError "third argument must be callable")) := by
  have hlen : ¬ (extras.length + 1 + 1 + 1 < 3) := by omega
  cases ht : env.pyg_type_from_object pygtype with
  | none => simp [pyg_add_emission_hook, hlen, ht]
  | some gtype =>
    have hn := hres gtype ht
    cases hc : env.PyCallable_Check callback with
    | false => simp [pyg_add_emission_hook, hlen, ht, hc]
    | true => simp [pyg_add_emission_hook, hlen, ht, hc, hn]

/-- Witness of C3 amended: an unknown signal name with a callable callback. -/
theorem add_unresolved_signal_fails_witness :
    (∃ e, (pyg_add_emission_hook sampleEnv (PyObject.object 0)
      (PyObject.int 1 :: PyObject.str "no-such-signal" :: PyObject.object 9 :: [])
      Native.init).ret = .error e) ∧
    (pyg_add_emission_hook sampleEnv (PyObject.object 0)
      (PyObject.int 1 :: PyObject.str "no-such-signal" :: PyObject.object 9 :: [])
      Native.init).state = Native.init ∧
    (pyg_add_emission_hook sampleEnv (PyObject.object 0)
      (PyObject.int 1 :: PyObject.str "no-such-signal" :: PyObject.object 9 :: [])
      Native.init).trace = [] ∧
    (∀ g, sampleEnv.pyg_type_from_object (PyObject.int 1) = some g →
      (pyg_add_emission_hook sampleEnv (PyObject.object 0)
        (PyObject.int 1 :: PyObject.str "no-such-signal" :: PyObject.object 9 :: [])
        Native.init).ret =
        .error (if sampleEnv.PyCallable_Check (PyObject.object 9)
                then unknown_signal sampleEnv (PyObject.object 0) "no-such-signal"
                else PyErr.TypeError "third argument must be callable")) :=
  add_unresolved_signal_fails sampleEnv (PyObject.object 0) (PyObject.int 1) (PyObject.object 9)
    "no-such-signal" [] Native.init (by
      intro g hg
      have h1 : g = 1 := by
        have : sampleEnv.pyg_type_from_object (PyObject.int 1) = some 1 := by decide
        rw [this] at hg
        exact (Option.some.inj hg).symm
      subst h1
      decide)

/-- C6, as stated, fails: a handle registered on "clicked" (signal 11) is passed
to the removal together with "notify::label" (signal 12); the call returns
`None` and asks the native facility to remove hook 1 of signal 12. -/
theorem remove_with_other_signal_is_accepted :
    (pyg_add_emission_hook sampleEnv (PyObject.object 0)
      [PyObject.int 1, PyObject.str "clicked", PyObject.object 9] Native.init).ret
      = .ok (PyObject.int 1) ∧
    (pyg_add_emission_hook sampleEnv (PyObject.object 0)
      [PyObject.int 1, PyObject.str "clicked", PyObject.object 9] Native.init).trace
      = [Event.g_signal_add_emission_hook 11 0 ⟨PyObject.object 9, []⟩ 1] ∧
    (pyg_remove_emission_hook sampleEnv (PyObject.object 0)
      [PyObject.int 1, PyObject.str "notify::label", PyObject.int 1]
      (pyg_add_emission_hook sampleEnv (PyObject.object 0)
        [PyObject.int 1, PyObject.str "clicked", PyObject.object 9] Native.init).state).ret
      = .ok PyObject.Py_None ∧
    (pyg_remove_emission_hook sampleEnv (PyObject.object 0)
      [PyObject.int 1, PyObject.str "notify::label", PyObject.int 1]
      (pyg_add_emission_hook sampleEnv (PyObject.object 0)
        [PyObject.int 1, PyObject.str "clicked", PyObject.object 9] Native.init).state).trace.head?
      = some (Event.g_signal_remove_emission_hook 12 1) := by
  refine ⟨by rfl, by decide, by rfl, by decide⟩

/-- C6, amended: when the type converts, a removal whose name does not resolve
fails with the unknown-signal error and asks nothing of the native facility;
when the name resolves to a signal id, the removal of the given handle is
requested for that signal id and the call returns `None`. -/
theorem remove_checks_resolution_only (env : Env) (self pygtype : PyObject) (name : String)
    (k : Int) (s : Native) (gtype : Nat)
    (ht : env.pyg_type_from_object pygtype = some gtype) :
    match env.g_signal_parse_name name gtype with
    | none =>
      (pyg_remove_emission_hook env self [pygtype, PyObject.str name, PyObject.int k] s).ret
        = .error (unknown_signal env self name) ∧
      (pyg_remove_emission_hook env self [pygtype, PyObject.str name, PyObject.int k] s).state
        = s ∧
      (pyg_remove_emission_hook env self [pygtype, PyObject.str name, PyObject.int k] s).trace
        = []
    | some (signal_id, _) =>
      (pyg_remove_emission_hook env self [pygtype, PyObject.str name, PyObject.int k] s).ret
        = .ok PyObject.Py_None ∧
      ∃ rest,
        (pyg_remove_emission_hook env self [pygtype, PyObject.str name, PyObject.int k] s).trace
          = Event.g_signal_remove_emission_hook signal_id (k % (ULONG_MOD : Int)).toNat :: rest := by
  cases hn : env.g_signal_parse_name name gtype with
  | none => simp [pyg_remove_emission_hook, ht, hn]
  | some p =>
    obtain ⟨signal_id, detail⟩ := p
    simp [pyg_remove_emission_hook, ht, hn]

/-- Witness of C6 amended: the name resolves to signal 12. -/
theorem remove_checks_resolution_only_witness :
    match sampleEnv.g_signal_parse_name "notify::label" 1 with
    | none =>
      (pyg_remove_emission_hook sampleEnv (PyObject.object 0)
        [PyObject.int 1, PyObject.str "notify::label", PyObject.int 1] Native.init).ret
        = .error (unknown_signal sampleEnv (PyObject.object 0) "notify::label") ∧
      (pyg_remove_emission_hook sampleEnv (PyObject.object 0)
        [PyObject.int 1, PyObject.str "notify::label", PyObject.int 1] Native.init).state
        = Native.init ∧
      (pyg_remove_emission_hook sampleEnv (PyObject.object 0)
        [PyObject.int 1, PyObject.str "notify::label", PyObject.int 1] Native.init).trace
        = []
    | some (signal_id, _) =>
      (pyg_remove_emission_hook sampleEnv (PyObject.object 0)
        [PyObject.int 1, PyObject.str "notify::label", PyObject.int 1] Native.init).ret
        = .ok PyObject.Py_None ∧
      ∃ rest,
        (pyg_remove_emission_hook sampleEnv (PyObject.object 0)
          [PyObject.int 1, PyObject.str "notify::label", PyObject.int 1] Native.init).trace
          = Event.g_signal_remove_emission_hook signal_id
              ((1 : Int) % (ULONG_MOD : Int)).toNat :: rest :=
  remove_checks_resolution_only sampleEnv (PyObject.object 0) (PyObject.int 1) "notify::label"
    1 Native.init 1 (by decide)

/-- Removing the hook that was just added, under a handle no other registered
hook carries, gives back the hooks as they were and notifies its closure. -/
theorem g_signal_remove_after_add (s : Native) (sigid detail : Nat) (data : HookData)
    (hfresh : ∀ k ∈ s.hooks, k.hook_id ≠ s.seq_id % ULONG_MOD) :
    (g_signal_remove_emission_hook (g_signal_add_emission_hook s sigid detail data).2 sigid
      (g_signal_add_emission_hook s sigid detail data).1).1.hooks = s.hooks ∧
    (g_signal_remove_emission_hook (g_signal_add_emission_hook s sigid detail data).2 sigid
      (g_signal_add_emission_hook s sigid detail data).1).2 = [Event.pyg_destroy_notify data] := by
  have hnone : s.hooks.find?
      (fun h => decide (h.signal_id = sigid ∧ h.hook_id = s.seq_id % ULONG_MOD)) = none := by
    rw [List.find?_eq_none]
    intro k hk
    simp [hfresh k hk]
  have hno : ∀ b ∈ s.hooks,
      ¬ (fun h : EmissionHook =>
        decide (h.signal_id = sigid ∧ h.hook_id = s.seq_id % ULONG_MOD)) b = true := by
    intro k hk
    simp [hfresh k hk]
  simp only [g_signal_add_emission_hook, g_signal_remove_emission_hook]
  rw [List.find?_append, hnone, List.eraseP_append_right _ hno]
  simp

/-- C7: after a successful registration returning `h`, under a handle that no
other registered hook carries, the removal with the same type, name and `h`
returns `None`, passes to the native facility the signal id and hook id of
the registration, leaves the registered hooks as they were before the
registration, and the destruction notification of the closure runs once. -/
theorem add_then_remove_round_trip (env : Env) (self pygtype callback h : PyObject)
    (name : String) (extras : List PyObject) (s : Native)
    (hadd : (pyg_add_emission_hook env self
      (pygtype :: PyObject.str name :: callback :: extras) s).ret = .ok h)
    (hfresh : ∀ k ∈ s.hooks, k.hook_id ≠ s.seq_id % ULONG_MOD) :
    (pyg_remove_emission_hook env self [pygtype, PyObject.str name, h]
      (pyg_add_emission_hook env self
        (pygtype :: PyObject.str name :: callback :: extras) s).state).ret
      = .ok PyObject.Py_None ∧
    (∃ sigid detail hook_id,
      (pyg_add_emission_hook env self
        (pygtype :: PyObject.str name :: callback :: extras) s).trace
        = [Event.g_signal_add_emission_hook sigid detail ⟨callback, extras⟩ hook_id] ∧
      (pyg_remove_emission_hook env self [pygtype, PyObject.str name, h]
        (pyg_add_emission_hook env self
          (pygtype :: PyObject.str name :: callback :: extras) s).state).trace
        = [Event.g_signal_remove_emission_hook sigid hook_id,
           Event.pyg_destroy_notify ⟨callback, extras⟩]) ∧
    (pyg_remove_emission_hook env self [pygtype, PyObject.str name, h]
      (pyg_add_emission_hook env self
        (pygtype :: PyObject.str name :: callback :: extras) s).state).state.hooks
      = s.hooks ∧
    destroyed ((pyg_add_emission_hook env self
        (pygtype :: PyObject.str name :: callback :: extras) s).trace ++
      (pyg_remove_emission_hook env self [pygtype, PyObject.str name, h]
        (pyg_add_emission_hook env self
          (pygtype :: PyObject.str name :: callback :: extras) s).state).trace)
      = [⟨callback, extras⟩] := by
  obtain ⟨gtype, sigid, detail, ht, hn, hh, hstate, htrace⟩ :=
    pyg_add_emission_hook_ok env self pygtype callback h name extras s hadd
  have hk : (((g_signal_add_emission_hook s sigid detail ⟨callback, extras⟩).1 : Int)
      % (ULONG_MOD : Int)).toNat = (g_signal_add_emission_hook s sigid detail ⟨callback, extras⟩).1 := by
    simp only [g_signal_add_emission_hook, ULONG_MOD]
    omega
  obtain ⟨h1, h2⟩ := g_signal_remove_after_add s sigid detail ⟨callback, extras⟩ hfresh
  rw [hstate, htrace, hh]
  simp only [pyg_remove_emission_hook, ht, hn, hk]
  refine ⟨trivial, ⟨sigid, detail, _, rfl, ?_⟩, h1, ?_⟩
  · rw [h2]
  · rw [h2]
    rfl

/-- Witness of C7: one earlier hook is registered; the new one gets handle 2. -/
theorem add_then_remove_round_trip_witness :
    (pyg_remove_emission_hook sampleEnv (PyObject.object 0)
      [PyObject.int 1, PyObject.str "clicked", PyObject.int 2]
      (pyg_add_emission_hook sampleEnv (PyObject.object 0)
        (PyObject.int 1 :: PyObject.str "clicked" :: PyObject.object 9 :: [PyObject.int 4])
        ⟨[⟨11, 0, 1, ⟨PyObject.object 7, []⟩⟩], 2, none, none, none⟩).state).ret
      = .ok PyObject.Py_None ∧
    (∃ sigid detail hook_id,
      (pyg_add_emission_hook sampleEnv (PyObject.object 0)
        (PyObject.int 1 :: PyObject.str "clicked" :: PyObject.object 9 :: [PyObject.int 4])
        ⟨[⟨11, 0, 1, ⟨PyObject.object 7, []⟩⟩], 2, none, none, none⟩).trace
        = [Event.g_signal_add_emission_hook sigid detail
            ⟨PyObject.object 9, [PyObject.int 4]⟩ hook_id] ∧
      (pyg_remove_emission_hook sampleEnv (PyObject.object 0)
        [PyObject.int 1, PyObject.str "clicked", PyObject.int 2]
        (pyg_add_emission_hook sampleEnv (PyObject.object 0)
          (PyObject.int 1 :: PyObject.str "clicked" :: PyObject.object 9 :: [PyObject.int 4])
          ⟨[⟨11, 0, 1, ⟨PyObject.object 7, []⟩⟩], 2, none, none, none⟩).state).trace
        = [Event.g_signal_remove_emission_hook sigid hook_id,
           Event.pyg_destroy_notify ⟨PyObject.object 9, [PyObject.int 4]⟩]) ∧
    (pyg_remove_emission_hook sampleEnv (PyObject.object 0)
      [PyObject.int 1, PyObject.str "clicked", PyObject.int 2]
      (pyg_add_emission_hook sampleEnv (PyObject.object 0)
        (PyObject.int 1 :: PyObject.str "clicked" :: PyObject.object 9 :: [PyObject.int 4])
        ⟨[⟨11, 0, 1, ⟨PyObject.object 7, []⟩⟩], 2, none, none, none⟩).state).state.hooks
      = [⟨11, 0, 1, ⟨PyObject.object 7, []⟩⟩] ∧
    destroyed ((pyg_add_emission_hook sampleEnv (PyObject.object 0)
        (PyObject.int 1 :: PyObject.str "clicked" :: PyObject.object 9 :: [PyObject.int 4])
        ⟨[⟨11, 0, 1, ⟨PyObject.object 7, []⟩⟩], 2, none, none, none⟩).trace ++
      (pyg_remove_emission_hook sampleEnv (PyObject.object 0)
        [PyObject.int 1, PyObject.str "clicked", PyObject.int 2]
        (pyg_add_emission_hook sampleEnv (PyObject.object 0)
          (PyObject.int 1 :: PyObject.str "clicked" :: PyObject.object 9 :: [PyObject.int 4])
          ⟨[⟨11, 0, 1, ⟨PyObject.object 7, []⟩⟩], 2, none, none, none⟩).state).trace)
      = [⟨PyObject.object 9, [PyObject.int 4]⟩] :=
  add_then_remove_round_trip sampleEnv (PyObject.object 0) (PyObject.int 1) (PyObject.object 9)
    (PyObject.int 2) "clicked" [PyObject.int 4]
    ⟨[⟨11, 0, 1, ⟨PyObject.object 7, []⟩⟩], 2, none, none, none⟩ (by rfl) (by decide)

/-! ## The event handler slot -/

/-- The teardown of a closure frees that record once and releases its callable
and its context once each. -/
theorem pygtk_custom_destroy_notify_once (old : PyGtkCustomNotify) :
    frees (pygtk_custom_destroy_notify (some old)) = [old] ∧
    decrefs (pygtk_custom_destroy_notify (some old)) =
      (old.func.toList ++ old.data.toList).map PyRef.obj := by
  obtain ⟨f, d⟩ := old
  cases f <;> cases d <;> simp [pygtk_custom_destroy_notify, Py_XDECREF, frees, decrefs]

/-- The slot contents that `_wrap_gdk_event_handler_set` passes to the native
facility. -/
theorem event_handler_set_run (pyfunc : PyObject) (pyarg : Option PyObject)
    (s : Native) (old : PyGtkCustomNotify)
    (hnotify : s.event_notify = some DestroyNotify.pygtk_custom_destroy_notify)
    (hdata : s.event_data = some old) :
    ∃ pre F D N,
      _wrap_gdk_event_handler_set (pyfunc :: pyarg.toList) s =
        ⟨.ok PyObject.Py_None, ⟨s.hooks, s.seq_id, F, D, N⟩,
          pre ++ pygtk_custom_destroy_notify (some old) ++
            [Event.gdk_event_handler_set F D N, Event.Py_INCREF (PyRef.obj PyObject.Py_None)]⟩ ∧
      frees pre = [] ∧ decrefs pre = [] ∧
      (F, D, N) =
        (if pyfunc = PyObject.Py_None then (none, none, none)
         else (some EventFunc.pygdk_event_handler_marshal, some ⟨some pyfunc, pyarg⟩,
               some DestroyNotify.pygtk_custom_destroy_notify)) := by
  by_cases hnone : pyfunc = PyObject.Py_None
  · refine ⟨[], none, none, none, ?_, rfl, rfl, by simp [hnone]⟩
    cases pyarg <;>
      simp [_wrap_gdk_event_handler_set, gdk_event_handler_set, hnotify, hdata, hnone]
  · refine ⟨Event.Py_INCREF (PyRef.obj pyfunc) :: Py_XINCREF pyarg,
      some EventFunc.pygdk_event_handler_marshal, some ⟨some pyfunc, pyarg⟩,
      some DestroyNotify.pygtk_custom_destroy_notify, ?_, ?_, ?_, by simp [hnone]⟩
    · cases pyarg <;>
        simp [_wrap_gdk_event_handler_set, gdk_event_handler_set, hnotify, hdata, hnone,
          Py_XINCREF]
    · cases pyarg <;> simp [Py_XINCREF, frees]
    · cases pyarg <;> simp [Py_XINCREF, decrefs]

/-- C8: a call of `event_handler_set` made while a closure is installed returns
`None`; the previous closure is torn down exactly once (its record freed once,
its callable and context released once), and this happens before the slot is
assigned; afterwards the slot holds the closure built from the supplied
callable and context, or is empty with no teardown when `None` was supplied. -/
theorem event_handler_set_replaces_closure (pyfunc : PyObject) (pyarg : Option PyObject)
    (s : Native) (old : PyGtkCustomNotify)
    (hnotify : s.event_notify = some DestroyNotify.pygtk_custom_destroy_notify)
    (hdata : s.event_data = some old) :
    (_wrap_gdk_event_handler_set (pyfunc :: pyarg.toList) s).ret = .ok PyObject.Py_None ∧
    frees (_wrap_gdk_event_handler_set (pyfunc :: pyarg.toList) s).trace = [old] ∧
    decrefs (_wrap_gdk_event_handler_set (pyfunc :: pyarg.toList) s).trace =
      (old.func.toList ++ old.data.toList).map PyRef.obj ∧
    (∃ pre post,
      (_wrap_gdk_event_handler_set (pyfunc :: pyarg.toList) s).trace =
        pre ++ pygtk_custom_destroy_notify (some old) ++
          Event.gdk_event_handler_set
            (_wrap_gdk_event_handler_set (pyfunc :: pyarg.toList) s).state.event_func
            (_wrap_gdk_event_handler_set (pyfunc :: pyarg.toList) s).state.event_data
            (_wrap_gdk_event_handler_set (pyfunc :: pyarg.toList) s).state.event_notify :: post ∧
      frees pre = [] ∧ decrefs pre = [] ∧ frees post = [] ∧ decrefs post = []) ∧
    ((_wrap_gdk_event_handler_set (pyfunc :: pyarg.toList) s).state.event_func,
     (_wrap_gdk_event_handler_set (pyfunc :: pyarg.toList) s).state.event_data,
     (_wrap_gdk_event_handler_set (pyfunc :: pyarg.toList) s).state.event_notify) =
      (if pyfunc = PyObject.Py_None then (none, none, none)
       else (some EventFunc.pygdk_event_handler_marshal, some ⟨some pyfunc, pyarg⟩,
             some DestroyNotify.pygtk_custom_destroy_notify)) := by
  obtain ⟨hf, hd⟩ := pygtk_custom_destroy_notify_once old
  obtain ⟨pre, F, D, N, hrun, hpf, hpd, hslot⟩ :=
    event_handler_set_run pyfunc pyarg s old hnotify hdata
  rw [hrun]
  refine ⟨rfl, ?_, ?_, ⟨pre, [Event.Py_INCREF (PyRef.obj PyObject.Py_None)], rfl, hpf, hpd,
    rfl, rfl⟩, hslot⟩
  · simp only [frees_append, hpf, hf]
    rfl
  · simp only [decrefs_append, hpd, hd]
    simp [decrefs]

/-- Witness of C8: object 7 is installed with context `int 3`, then object 9 is
installed without context. -/
theorem event_handler_set_replaces_closure_witness :
    (_wrap_gdk_event_handler_set (PyObject.object 9 :: (none : Option PyObject).toList)
      (_wrap_gdk_event_handler_set [PyObject.object 7, PyObject.int 3] Native.init).state).ret
      = .ok PyObject.Py_None ∧
    frees (_wrap_gdk_event_handler_set (PyObject.object 9 :: (none : Option PyObject).toList)
      (_wrap_gdk_event_handler_set [PyObject.object 7, PyObject.int 3] Native.init).state).trace
      = [⟨some (PyObject.object 7), some (PyObject.int 3)⟩] ∧
    (_wrap_gdk_event_handler_set (PyObject.object 9 :: (none : Option PyObject).toList)
      (_wrap_gdk_event_handler_set [PyObject.object 7, PyObject.int 3] Native.init).state).state.event_data
      = some ⟨some (PyObject.object 9), none⟩ :=
  have h := event_handler_set_replaces_closure (PyObject.object 9) none
    (_wrap_gdk_event_handler_set [PyObject.object 7, PyObject.int 3] Native.init).state
    ⟨some (PyObject.object 7), some (PyObject.int 3)⟩ (by decide) (by decide)
  ⟨h.1, h.2.1, (congrArg (fun t => t.2.1) h.2.2.2.2 : _)⟩

end Kiwi
